import Mathlib

/-!
Verification development for the FakeNewsDetector Streamlit app (src/app.py).
Python strings are modelled as Lean `String` with Python semantics given by
the `py*` helpers (lengths and slices count code points, as Python does);
Python floats are modelled as rationals `ℚ`; HTTP/network effects are
modelled as explicit outcome values.
-/

namespace FakeNews

/-- Python `len(s)` on a str: number of code points. -/
def pyLen (s : String) : Nat := s.data.length

/-- Python slice `s[:n]` on a str: the first `n` code points. -/
def pyTake (s : String) (n : Nat) : String := ⟨s.data.take n⟩

/-- Python `s.lower()`. -/
def pyLower (s : String) : String := ⟨s.data.map Char.toLower⟩

/-- Python `s.strip()`: drop whitespace from both ends. -/
def pyStrip (s : String) : String :=
  ⟨((s.data.dropWhile Char.isWhitespace).reverse.dropWhile Char.isWhitespace).reverse⟩

/-- Does `pat` occur as a contiguous run inside the list? -/
def listHasSub (pat : List Char) : List Char → Bool
  | [] => pat.isEmpty
  | c :: rest => pat.isPrefixOf (c :: rest) || listHasSub pat rest

/-- Python `pat in s` for strings: substring containment. -/
def pyIn (pat s : String) : Bool := listHasSub pat.data s.data

/-- Python `sep.join(xs)`. -/
def pyJoin (sep : String) : List String → String
  | [] => ""
  | [x] => x
  | x :: y :: xs => x ++ sep ++ pyJoin sep (y :: xs)

/-- Python `d.get(k)` on a dict with string keys, as association-list lookup. -/
def dictGet (d : List (String × ℚ)) (k : String) : Option ℚ :=
  match d with
  | [] => none
  | (k2, v) :: rest => if k2 = k then some v else dictGet rest k

/-- The expression `prob_dict.get("REAL", prob_dict.get("Real", 0.0))` —
the REAL-class probability lookup shared by app.py lines 204 and 273. -/
def lookupRealProb (prob_dict : List (String × ℚ)) : ℚ :=
  match dictGet prob_dict "REAL" with
  | some p => p
  | none =>
    match dictGet prob_dict "Real" with
    | some p => p
    | none => 0

/-- Fallback classification of a headline, app.py lines 200-205 and 211-214:
`predict` stands for `vec.transform` + `clf.predict_proba` producing the
class-probability pairs; returns the emitted label and the reported
confidence (`real_prob`). -/
def headlineClassify (predict : String → List (String × ℚ)) (text : String)
    (confidence : ℚ) : String × ℚ :=
  let prob_dict := predict text
  let real_prob := lookupRealProb prob_dict
  (if real_prob ≥ confidence then "REAL" else "FAKE", real_prob)

/-- Single-article classification, app.py lines 269-279: textually the same
computation as the headlines path. -/
def articleClassify (predict : String → List (String × ℚ)) (user_text : String)
    (confidence : ℚ) : String × ℚ :=
  let prob_dict := predict user_text
  let real_prob := lookupRealProb prob_dict
  (if real_prob ≥ confidence then "REAL" else "FAKE", real_prob)

/-- One `claimReview` entry of the upstream Fact Check Tools JSON, with the
four fields app.py reads from it (lines 76-79). -/
structure ClaimReview where
  textualRating : String
  publisherName : String
  url : String
  publishedDate : String
deriving DecidableEq

/-- One claim of the upstream JSON, with the fields app.py reads
(lines 71-73): `text`, `claimant` and the `claimReview` list. -/
structure UpstreamClaim where
  text : String
  claimant : String
  claimReview : List ClaimReview
deriving DecidableEq

/-- The flat record `call_google_factcheck` builds for each claim
(app.py lines 82-89). It has exactly these six fields. -/
structure FactCheckRecord where
  claim : String
  claimant : String
  textual_rating : String
  publisher : String
  url : String
  published : String
deriving DecidableEq

/-- Outcome of the HTTP GET + status check + JSON parse in
`call_google_factcheck`: either some exception was raised, or the parsed
body's `claims` list (already capped at `pageSize` 5 upstream). -/
inductive FetchOutcome where
  | failure
  | success (claims : List UpstreamClaim)
deriving DecidableEq

/-- The per-claim record construction of app.py lines 70-89: when the claim
has reviews only the first one is used; otherwise the four review-derived
fields are the empty string. -/
def mkRecord (c : UpstreamClaim) : FactCheckRecord :=
  match c.claimReview with
  | [] => ⟨c.text, c.claimant, "", "", "", ""⟩
  | review :: _ =>
    ⟨c.text, c.claimant, review.textualRating, review.publisherName,
      review.url, review.publishedDate⟩

/-- The helper `call_google_factcheck(query, api_key)` (app.py lines 58-93). The
`api_key` is `Option String` (`st.secrets` lookup may yield nothing);
`not api_key` covers both `None` and the empty string. `query` is what is
sent to the service; the response is modelled by `outcome`. -/
def call_google_factcheck (query : String) (api_key : Option String)
    (outcome : FetchOutcome) : List FactCheckRecord :=
  match api_key with
  | none => []
  | some k =>
    if k = "" then []
    else
      match outcome with
      | .failure => []
      | .success claims => claims.map mkRecord

/-- The three render verdicts: `st.error` (negative), `st.success`
(positive), `st.info` (neutral/unknown). -/
inductive Verdict where
  | negative
  | positive
  | neutral
deriving DecidableEq

/-- Verdict keyword matching of the headlines path, app.py lines 184-190. -/
def verdict_headlines (rating : String) : Verdict :=
  let v := pyLower rating
  if pyIn "false" v || pyIn "pants on fire" v then .negative
  else if pyIn "true" v || pyIn "correct" v || pyIn "accurate" v then .positive
  else .neutral

/-- Verdict keyword matching of the single-article path, app.py
lines 257-262: it checks only `"false"` and `"true"`. -/
def verdict_article (rating : String) : Verdict :=
  if pyIn "false" (pyLower rating) then .negative
  else if pyIn "true" (pyLower rating) then .positive
  else .neutral

/-- The full keyword rule as the spec states it: "false"/"pants on fire" →
negative; "true"/"correct"/"accurate" → positive; else neutral/unknown.
Written from the spec's words, to be compared with the code's two paths. -/
def specKeywordVerdict (rating : String) : Verdict :=
  let v := pyLower rating
  if pyIn "false" v || pyIn "pants on fire" v then .negative
  else if pyIn "true" v || pyIn "correct" v || pyIn "accurate" v then .positive
  else .neutral

/-- One RSS entry with the fields app.py reads (lines 152-154). -/
structure Entry where
  title : String
  summary : String
  description : String
  link : String
deriving DecidableEq

/-- Result of `feedparser.parse` on one feed: either parsing raised an
exception, or it produced a list of entries. -/
inductive FeedResult where
  | failed (msg : String)
  | ok (entries : List Entry)
deriving DecidableEq

/-- The per-headline metadata record of app.py line 157. -/
structure Meta where
  source : String
  title : String
  link : String
deriving DecidableEq

/-- The headline text built at app.py line 155: `f"{title}. {...}"` where
`stripHtml` stands for `BeautifulSoup(summary, 'html.parser').get_text()`,
and the summary is `e.get("summary","") or e.get("description","")`. -/
def entryText (stripHtml : String → String) (e : Entry) : String :=
  let summary := if e.summary = "" then e.description else e.summary
  e.title ++ ". " ++ stripHtml summary

/-- The body of one iteration of the RSS loop (app.py lines 148-159): a
failed feed contributes only a warning; a parsed feed contributes up to
`max_feeds` headline texts and metadata records. -/
def processFeed (stripHtml : String → String) (max_feeds : Nat)
    (src_name : String) : FeedResult → List String × List Meta × List String
  | .failed ex => ([], [], ["Feed parse failed for " ++ src_name ++ ": " ++ ex])
  | .ok entries =>
    let es := entries.take max_feeds
    (es.map (entryText stripHtml), es.map (fun e => ⟨src_name, e.title, e.link⟩), [])

/-- One accumulation step of the RSS loop: append the new headlines, metas
and warnings to the accumulators. -/
def feedStep (stripHtml : String → String) (max_feeds : Nat)
    (acc : List String × List Meta × List String) (sf : String × FeedResult) :
    List String × List Meta × List String :=
  let r := processFeed stripHtml max_feeds sf.1 sf.2
  (acc.1 ++ r.1, acc.2.1 ++ r.2.1, acc.2.2 ++ r.2.2)

/-- The whole RSS fetch loop of app.py lines 147-159 over the given feeds
(source name paired with its parse result): produces the `headlines` and
`metas` lists and the warnings emitted. -/
def fetchHeadlines (stripHtml : String → String) (max_feeds : Nat)
    (feeds : List (String × FeedResult)) : List String × List Meta × List String :=
  feeds.foldl (feedStep stripHtml max_feeds) ([], [], [])

/-- Outcome of `requests.get` + BeautifulSoup in `extract_text_from_url`:
either an exception (including timeout), or the list of `<p>` paragraph
texts found in the page. -/
inductive PageFetch where
  | failure
  | success (paragraphs : List String)
deriving DecidableEq

/-- The helper `extract_text_from_url` (app.py lines 126-135): joins the paragraph
texts with blank lines and returns `""` unless the result has at least 50
characters; any exception also yields `""`. -/
def extract_text_from_url (r : PageFetch) : String :=
  match r with
  | .failure => ""
  | .success paragraphs =>
    let text := pyJoin "\n\n" paragraphs
    if pyLen text ≥ 50 then text else ""

/-- What the single-article analyzer displays (app.py lines 242-281). -/
inductive AnalyzeDisplay where
  | warnShort
  | factcheckResults (records : List FactCheckRecord)
  | mlUnavailable
  | classified (label : String) (conf : ℚ)
deriving DecidableEq

/-- Result of one run of the single-article analyzer: what was displayed,
and the query string sent to the fact-check service if it was called. -/
structure AnalyzeResult where
  display : AnalyzeDisplay
  factQuery : Option String
deriving DecidableEq

/-- Python truthiness of the `gc_key` value: non-`None` and non-empty. -/
def keyTruthy : Option String → Bool
  | none => false
  | some k => k != ""

/-- The single-article analysis of app.py lines 242-281, after URL-mode
resolution has produced `user_text`. `predict` is `None` exactly when
`vec is None or clf is None`; `factOutcome` models the fact-check HTTP
response. Texts failing the 20-character guard are warned about and never
classified; otherwise the first 300 characters are sent to the fact-check
service when it is enabled and a key is present, and the local classifier
runs only when no fact-check results were found. -/
def analyzeText (user_text : String) (use_factcheck : Bool)
    (gc_key : Option String) (factOutcome : FetchOutcome)
    (predict : Option (String → List (String × ℚ))) (confidence : ℚ) :
    AnalyzeResult :=
  if user_text = "" ∨ pyLen (pyStrip user_text) < 20 then ⟨.warnShort, none⟩
  else
    let fq : Option String :=
      if use_factcheck && keyTruthy gc_key then some (pyTake user_text 300)
      else none
    let found : List FactCheckRecord :=
      match fq with
      | some q => call_google_factcheck q gc_key factOutcome
      | none => []
    let display : AnalyzeDisplay :=
      match found with
      | [] =>
        match predict with
        | none => .mlUnavailable
        | some predictFn =>
          let res := articleClassify predictFn user_text confidence
          .classified res.1 res.2
      | r :: rs => .factcheckResults (r :: rs)
    ⟨display, fq⟩

end FakeNews

open FakeNews

/-- A fixed class-probability map used to instantiate theorems with
hypotheses at concrete inputs. -/
def constPredict : String → List (String × ℚ) :=
  fun _ => [("REAL", (1:ℚ)/4), ("FAKE", (3:ℚ)/4)]

/-- C1: in both classification paths the label is REAL iff the looked-up
REAL-class probability is at least the threshold, FAKE otherwise, and the
reported confidence is that probability; in particular REAL-probability
0.71 against threshold 0.62 yields label REAL with confidence 0.71. -/
theorem real_label_iff_threshold (predict : String → List (String × ℚ))
    (text : String) (t : ℚ) :
    ((headlineClassify predict text t).1 = "REAL" ↔ t ≤ lookupRealProb (predict text)) ∧
    ((headlineClassify predict text t).1 = "FAKE" ↔ ¬ t ≤ lookupRealProb (predict text)) ∧
    (headlineClassify predict text t).2 = lookupRealProb (predict text) ∧
    articleClassify predict text t = headlineClassify predict text t ∧
    headlineClassify (fun _ => [("REAL", (71:ℚ)/100), ("FAKE", (29:ℚ)/100)])
      "Stocks rally on strong earnings." ((62:ℚ)/100) = ("REAL", (71:ℚ)/100) := by
  refine ⟨?_, ?_, ?_, rfl, ?_⟩
  · by_cases h : t ≤ lookupRealProb (predict text) <;>
      simp [headlineClassify, ge_iff_le, h]
  · by_cases h : t ≤ lookupRealProb (predict text) <;>
      simp [headlineClassify, ge_iff_le, h]
  · by_cases h : t ≤ lookupRealProb (predict text) <;>
      simp [headlineClassify, ge_iff_le, h]
  · norm_num [headlineClassify, lookupRealProb, dictGet]

/-- C2: for a fixed input, if either classification path emits FAKE at
threshold `t1` then it still emits FAKE at any threshold `t2 ≥ t1`. -/
theorem fake_monotone_in_threshold (predict : String → List (String × ℚ))
    (text : String) (t1 t2 : ℚ) (h12 : t1 ≤ t2) :
    ((headlineClassify predict text t1).1 = "FAKE" →
      (headlineClassify predict text t2).1 = "FAKE") ∧
    ((articleClassify predict text t1).1 = "FAKE" →
      (articleClassify predict text t2).1 = "FAKE") := by
  have key : ∀ p : ℚ, ¬ t1 ≤ p → ¬ t2 ≤ p := fun p h ht =>
    h (le_trans h12 ht)
  constructor
  · intro hfake
    have h1 : ¬ t1 ≤ lookupRealProb (predict text) := by
      by_contra hle
      simp [headlineClassify, ge_iff_le, hle] at hfake
    simp [headlineClassify, ge_iff_le, key _ h1]
  · intro hfake
    have h1 : ¬ t1 ≤ lookupRealProb (predict text) := by
      by_contra hle
      simp [articleClassify, ge_iff_le, hle] at hfake
    simp [articleClassify, ge_iff_le, key _ h1]

/-- Witness for C2 at a concrete input: probability 1/4, thresholds 1/2
and 3/4. -/
theorem fake_monotone_in_threshold_witness :
    ((1:ℚ)/2 ≤ (3:ℚ)/4) ∧
    (((headlineClassify constPredict "x" ((1:ℚ)/2)).1 = "FAKE" →
        (headlineClassify constPredict "x" ((3:ℚ)/4)).1 = "FAKE") ∧
      ((articleClassify constPredict "x" ((1:ℚ)/2)).1 = "FAKE" →
        (articleClassify constPredict "x" ((3:ℚ)/4)).1 = "FAKE")) :=
  ⟨by norm_num,
    fake_monotone_in_threshold constPredict "x" ((1:ℚ)/2) ((3:ℚ)/4) (by norm_num)⟩

/-- C3 counterexample: a classifier whose class labels are lowercase
`"real"`/`"fake"` is not resolved by the lookup — it falls back to 0
instead of the class's probability 9/10. -/
theorem real_lookup_lowercase_counterexample :
    lookupRealProb [("real", (9:ℚ)/10), ("fake", (1:ℚ)/10)] = 0 ∧
    (0:ℚ) ≠ (9:ℚ)/10 := by
  constructor
  · rfl
  · norm_num

/-- C3 amended: the lookup tolerates exactly the two casings `"REAL"` and
`"Real"` — it returns the probability under `"REAL"` when that key is
present, else the probability under `"Real"` when that key is present,
else 0; other casings of the label are not resolved. -/
theorem real_lookup_two_casings (d : List (String × ℚ)) (p : ℚ) :
    (dictGet d "REAL" = some p → lookupRealProb d = p) ∧
    (dictGet d "REAL" = none → dictGet d "Real" = some p → lookupRealProb d = p) ∧
    (dictGet d "REAL" = none → dictGet d "Real" = none → lookupRealProb d = 0) := by
  refine ⟨?_, ?_, ?_⟩
  · intro h
    simp [lookupRealProb, h]
  · intro h1 h2
    simp [lookupRealProb, h1, h2]
  · intro h1 h2
    simp [lookupRealProb, h1, h2]

/-- Witness for C3's amended statement: a map whose only key is `"Real"`
resolves to that class's probability. -/
theorem real_lookup_two_casings_witness :
    lookupRealProb [("Real", (7:ℚ)/10)] = (7:ℚ)/10 :=
  (real_lookup_two_casings [("Real", (7:ℚ)/10)] ((7:ℚ)/10)).2.1
    (by simp [dictGet]) (by simp [dictGet])

/-- C4: the fact-check lookup returns the empty list for a missing key, for
an empty key, and whenever the HTTP request, status check or JSON parse
raised — never an exception. -/
theorem factcheck_failures_yield_empty (q k : String) (o : FetchOutcome) :
    call_google_factcheck q none o = [] ∧
    call_google_factcheck q (some "") o = [] ∧
    call_google_factcheck q (some k) FetchOutcome.failure = [] := by
  refine ⟨rfl, rfl, ?_⟩
  by_cases h : k = "" <;> simp [call_google_factcheck, h]

/-- C5 counterexample: the rating "Pants on Fire!" gets the negative
verdict in the headlines path but only the neutral verdict in the
single-article path, so the two paths do not apply the same keyword rule. -/
theorem verdict_rule_not_shared_counterexample :
    verdict_headlines "Pants on Fire!" = Verdict.negative ∧
    verdict_article "Pants on Fire!" = Verdict.neutral := ⟨rfl, rfl⟩

/-- C5 amended: the headlines path implements the spec's full keyword rule,
while the single-article path checks only "false" (negative) and then
"true" (positive) on the lowercased rating, everything else being
neutral. -/
theorem verdict_rules_per_path (rating : String) :
    verdict_headlines rating = specKeywordVerdict rating ∧
    (verdict_article rating = Verdict.negative ↔
      pyIn "false" (pyLower rating) = true) ∧
    (verdict_article rating = Verdict.positive ↔
      (pyIn "false" (pyLower rating) = false ∧
        pyIn "true" (pyLower rating) = true)) := by
  refine ⟨rfl, ?_, ?_⟩ <;>
    cases hf : pyIn "false" (pyLower rating) <;>
      cases ht : pyIn "true" (pyLower rating) <;>
        simp [verdict_article, hf, ht]

/-- Folding the RSS accumulation step from any start just prepends the
start to the result of folding from the empty start. -/
theorem foldl_feedStep_acc (s : String → String) (m : Nat)
    (feeds : List (String × FeedResult)) :
    ∀ acc : List String × List Meta × List String,
      feeds.foldl (feedStep s m) acc =
        (acc.1 ++ (fetchHeadlines s m feeds).1,
          acc.2.1 ++ (fetchHeadlines s m feeds).2.1,
          acc.2.2 ++ (fetchHeadlines s m feeds).2.2) := by
  induction feeds with
  | nil => intro acc; simp [fetchHeadlines]
  | cons f fs ih =>
    intro acc
    show fs.foldl (feedStep s m) (feedStep s m acc f) = _
    rw [ih (feedStep s m acc f)]
    have hrhs : fetchHeadlines s m (f :: fs) =
        (( feedStep s m ([], [], []) f).1 ++ (fetchHeadlines s m fs).1,
          (feedStep s m ([], [], []) f).2.1 ++ (fetchHeadlines s m fs).2.1,
          (feedStep s m ([], [], []) f).2.2 ++ (fetchHeadlines s m fs).2.2) := by
      show fs.foldl (feedStep s m) (feedStep s m ([], [], []) f) = _
      rw [ih (feedStep s m ([], [], []) f)]
    rw [hrhs]
    simp [feedStep]

/-- The RSS loop distributes over list append, componentwise. -/
theorem fetchHeadlines_append (s : String → String) (m : Nat)
    (as bs : List (String × FeedResult)) :
    fetchHeadlines s m (as ++ bs) =
      ((fetchHeadlines s m as).1 ++ (fetchHeadlines s m bs).1,
        (fetchHeadlines s m as).2.1 ++ (fetchHeadlines s m bs).2.1,
        (fetchHeadlines s m as).2.2 ++ (fetchHeadlines s m bs).2.2) := by
  show (as ++ bs).foldl (feedStep s m) ([], [], []) = _
  rw [List.foldl_append, foldl_feedStep_acc s m bs]
  rfl

/-- C6: a feed whose parse fails contributes no headlines and no metadata —
the headlines and metas are exactly those collected from the other feeds —
and its failure is reported as a warning naming the source. -/
theorem feed_failure_isolated (stripHtml : String → String) (m : Nat)
    (xs ys : List (String × FeedResult)) (name msg : String) :
    (fetchHeadlines stripHtml m (xs ++ (name, FeedResult.failed msg) :: ys)).1 =
      (fetchHeadlines stripHtml m (xs ++ ys)).1 ∧
    (fetchHeadlines stripHtml m (xs ++ (name, FeedResult.failed msg) :: ys)).2.1 =
      (fetchHeadlines stripHtml m (xs ++ ys)).2.1 ∧
    ("Feed parse failed for " ++ name ++ ": " ++ msg) ∈
      (fetchHeadlines stripHtml m (xs ++ (name, FeedResult.failed msg) :: ys)).2.2 := by
  have hmid : xs ++ (name, FeedResult.failed msg) :: ys =
      xs ++ ([(name, FeedResult.failed msg)] ++ ys) := by simp
  have hsingle : fetchHeadlines stripHtml m [(name, FeedResult.failed msg)] =
      ([], [], ["Feed parse failed for " ++ name ++ ": " ++ msg]) := rfl
  rw [hmid, fetchHeadlines_append stripHtml m xs,
    fetchHeadlines_append stripHtml m [(name, FeedResult.failed msg)] ys,
    fetchHeadlines_append stripHtml m xs ys, hsingle]
  simp

/-- C7: article extraction returns "" when the fetch raised (including a
timeout), returns "" when the joined paragraph text has fewer than 50
characters, and otherwise returns the paragraph texts joined with blank
lines. -/
theorem extract_text_contract (ps : List String) :
    extract_text_from_url PageFetch.failure = "" ∧
    (pyLen (pyJoin "\n\n" ps) < 50 →
      extract_text_from_url (PageFetch.success ps) = "") ∧
    (50 ≤ pyLen (pyJoin "\n\n" ps) →
      extract_text_from_url (PageFetch.success ps) = pyJoin "\n\n" ps) := by
  refine ⟨rfl, ?_, ?_⟩
  · intro h
    simp only [extract_text_from_url, ge_iff_le]
    rw [if_neg (by omega)]
  · intro h
    simp only [extract_text_from_url, ge_iff_le]
    rw [if_pos h]

/-- Witness for C7: a single one-character paragraph is below the
50-character minimum, so extraction signals failure with "". -/
theorem extract_text_contract_witness :
    pyLen (pyJoin "\n\n" ["a"]) < 50 ∧
    extract_text_from_url (PageFetch.success ["a"]) = "" :=
  ⟨by decide, (extract_text_contract ["a"]).2.1 (by decide)⟩

/-- C8: a text whose whitespace-stripped length is under 20 characters only
produces the warning — it is neither sent to the fact-check service nor
passed to the classifier, whatever the other inputs are. -/
theorem short_text_rejected (user_text : String) (uf : Bool)
    (gk : Option String) (fo : FetchOutcome)
    (predict : Option (String → List (String × ℚ))) (conf : ℚ)
    (h : pyLen (pyStrip user_text) < 20) :
    analyzeText user_text uf gk fo predict conf =
      ⟨AnalyzeDisplay.warnShort, none⟩ := by
  unfold analyzeText
  rw [if_pos (Or.inr h)]

/-- Witness for C8: the 9-character text "too short" is rejected. -/
theorem short_text_rejected_witness :
    pyLen (pyStrip "too short") < 20 ∧
    analyzeText "too short" true (some "k") FetchOutcome.failure none 0 =
      ⟨AnalyzeDisplay.warnShort, none⟩ :=
  ⟨by decide,
    short_text_rejected "too short" true (some "k") FetchOutcome.failure none 0
      (by decide)⟩

/-- C9: every record built by the fact-check lookup has exactly the six
fields of `FactCheckRecord`; a claim without reviews gets empty strings in
the four review-derived fields, a claim with several reviews uses only the
first, and on success the result is the per-claim record of each upstream
claim in order. -/
theorem factcheck_record_shape (t cl : String) (r : ClaimReview)
    (rest : List ClaimReview) (q k : String) (claims : List UpstreamClaim)
    (hk : k ≠ "") :
    mkRecord ⟨t, cl, []⟩ = ⟨t, cl, "", "", "", ""⟩ ∧
    mkRecord ⟨t, cl, r :: rest⟩ =
      ⟨t, cl, r.textualRating, r.publisherName, r.url, r.publishedDate⟩ ∧
    call_google_factcheck q (some k) (FetchOutcome.success claims) =
      claims.map mkRecord := by
  refine ⟨rfl, rfl, ?_⟩
  simp [call_google_factcheck, hk]

/-- Witness for C9 at concrete values, with the key "key". -/
theorem factcheck_record_shape_witness :
    mkRecord ⟨"c", "who", []⟩ = ⟨"c", "who", "", "", "", ""⟩ ∧
    mkRecord ⟨"c", "who", (⟨"False", "P", "u", "d"⟩ : ClaimReview) :: []⟩ =
      ⟨"c", "who", (⟨"False", "P", "u", "d"⟩ : ClaimReview).textualRating,
        (⟨"False", "P", "u", "d"⟩ : ClaimReview).publisherName,
        (⟨"False", "P", "u", "d"⟩ : ClaimReview).url,
        (⟨"False", "P", "u", "d"⟩ : ClaimReview).publishedDate⟩ ∧
    call_google_factcheck "q" (some "key") (FetchOutcome.success []) =
      List.map mkRecord [] :=
  factcheck_record_shape "c" "who" ⟨"False", "P", "u", "d"⟩ [] "q" "key" []
    (by decide)

/-- C10: whenever the single-article analyzer reaches the fact-check call
(text long enough, fact-check enabled, key present), the query it sends is
the first 300 characters of the text — for texts longer than 300
characters this is a proper truncation, not the full text. -/
theorem fact_query_is_truncation (user_text k : String) (fo : FetchOutcome)
    (predict : Option (String → List (String × ℚ))) (conf : ℚ)
    (hlen : 20 ≤ pyLen (pyStrip user_text)) (hk : k ≠ "") :
    (analyzeText user_text true (some k) fo predict conf).factQuery =
      some (pyTake user_text 300) ∧
    (300 < pyLen user_text → pyTake user_text 300 ≠ user_text) := by
  constructor
  · have hne : user_text ≠ "" := by
      intro he
      rw [he] at hlen
      simp [pyStrip, pyLen] at hlen
    have hcond : (true && keyTruthy (some k)) = true := by
      simp [keyTruthy, bne_iff_ne, hk]
    unfold analyzeText
    rw [if_neg (by push_neg; exact ⟨hne, by omega⟩)]
    simp only [hcond]
    simp
  · intro h300 he
    have hlen2 : (user_text.data.take 300).length = user_text.data.length := by
      have h2 := congrArg (fun s : String => s.data.length) he
      simpa [pyTake] using h2
    simp only [pyLen] at h300
    rw [List.length_take] at hlen2
    omega

/-- Witness for C10 at a concrete 40-character text and the key "key". -/
theorem fact_query_is_truncation_witness :
    (analyzeText "This particular headline is long enough." true (some "key")
        FetchOutcome.failure none 0).factQuery =
      some (pyTake "This particular headline is long enough." 300) :=
  (fact_query_is_truncation "This particular headline is long enough." "key"
      FetchOutcome.failure none 0 (by decide) (by decide)).1
